import Mathlib

/-!
Verification of the gas-sensor calibration and adaptive-send core of the
LunchboxMonitoring firmware (sketch.ino), as a shallow embedding in Lean 4.

Modelling conventions:
  * C floats are embedded as exact numbers: rationals for the code paths that
    only compare, add, subtract and take absolute values (store validation,
    lock engine, outlier filter, change gate), and reals for the logarithmic
    value mapper.  NaN, which the firmware uses purely as an "unset" sentinel
    guarded by isnan, is embedded as the `none` case of `Option`.
  * The checksum operates on the reinterpreted 32-bit patterns of the two
    floats; it is embedded as a function on natural numbers below 2^32,
    with the C unsigned shift/xor semantics made explicit via mod 2^32.
  * Times (millis) are naturals; unsigned subtraction on a monotone clock is
    truncated natural subtraction.
-/


/- ------------------------------------------------------------------ -/
/- Constants from sketch.ino                                          -/
/- ------------------------------------------------------------------ -/

def CAL_VERSION : ℕ := 1

def STABLE_CYCLES_MAX : ℕ := 25

def MIN_POST_INTERVAL : ℕ := 2000

def FORCE_INTERVAL : ℕ := 25000

noncomputable def PPM_MIN : ℝ := 0.1

noncomputable def PPM_MAX : ℝ := 100000

noncomputable def PPM_DISPLAY_MIN : ℝ := 1

noncomputable def PPM_DISPLAY_MAX : ℝ := 5000

noncomputable def GAS_PPM_EMA_ALPHA : ℝ := 0.30

noncomputable def TEMP_DELTA_MIN : ℝ := 0.2

noncomputable def HUMI_DELTA_MIN : ℝ := 1.0

noncomputable def GAS_RATIO_DELTA_MIN : ℝ := 0.10

noncomputable def GAS_PPM_DELTA_MIN : ℝ := 500.0

noncomputable def PROX_DELTA_MIN : ℝ := 2.0

def TEMP_SPIKE_MAX_DIFF : ℚ := 15

def HUMI_SPIKE_MAX_DIFF : ℚ := 20

/- ------------------------------------------------------------------ -/
/- simpleChecksum (sketch.ino lines 859-865)                          -/
/- ------------------------------------------------------------------ -/

/-- Embedding of `simpleChecksum(float a, float b)`.  The C function
reinterprets the two floats as uint32 bit patterns `*pa`, `*pb` and returns
`*pa ^ (*pb << 1) ^ 0xA5A5A5A5`.  Arguments here are the 32-bit patterns;
the left shift on uint32 is multiplication by 2 modulo 2^32 (the top bit of
`b` is discarded). -/
def simpleChecksum (a b : ℕ) : ℕ :=
  (a % 2 ^ 32) ^^^ (b % 2 ^ 32 * 2 % 2 ^ 32) ^^^ 0xA5A5A5A5

/-- Embedding of the checksum verification performed by `loadCalibration`
(line 894): the stored tag is compared for equality with the recomputed
checksum of the two stored floats' bit patterns. -/
def verifyChecksum (a b tag : ℕ) : Bool :=
  tag == simpleChecksum a b

/- ------------------------------------------------------------------ -/
/- Persisted calibration store (sketch.ino lines 867-909)             -/
/- ------------------------------------------------------------------ -/

/-- Logical layout of the persisted NVS record: fields `ver`, `min`, `max`,
`crc`.  A float field read back as NaN (key absent) is `none`. -/
structure CalRecord where
  ver : ℕ
  smin : Option ℚ
  smax : Option ℚ
  crc : ℕ
deriving DecidableEq

/-- In-memory calibration globals set by a successful `loadCalibration`. -/
structure CalLoaded where
  gasRawMin : ℚ
  gasRawMax : ℚ
  gasMaxLocked : Bool
  usedStoredCalibration : Bool
deriving DecidableEq

/-- Embedding of `loadCalibration()` (lines 867-898), abstracted over the
checksum-of-float-values function `cks` (in the firmware, `simpleChecksum`
applied to the bit patterns of the two floats).  Returns `none` ("absent",
forcing recalibration) when nothing is stored (`ver == 0`), on schema
mismatch, when the range check `sMin>=0 && sMax<=4095 && sMax>sMin+29`
fails (a NaN field makes every comparison false), or on checksum mismatch;
otherwise returns the loaded calibration with `gasMaxLocked` and
`usedStoredCalibration` set. -/
def loadCalibration (cks : ℚ → ℚ → ℕ) (r : CalRecord) : Option CalLoaded :=
  if r.ver = 0 then none
  else if r.ver ≠ CAL_VERSION then none
  else
    match r.smin, r.smax with
    | some sMin, some sMax =>
      if 0 ≤ sMin ∧ sMax ≤ 4095 ∧ sMax > sMin + 29 then
        if r.crc ≠ cks sMin sMax then none
        else some ⟨sMin, sMax, true, true⟩
      else none
    | _, _ => none

/-- Embedding of `saveCalibration()` (lines 900-909): a no-op unless
`gasMaxLocked`; otherwise writes `ver = CAL_VERSION`, the two floats, and
`crc = cks min max`. -/
def saveCalibration (cks : ℚ → ℚ → ℕ) (locked : Bool) (mn mx : ℚ) :
    Option CalRecord :=
  if locked then some ⟨CAL_VERSION, some mn, some mx, cks mn mx⟩ else none

/-- Concrete stand-in for the reinterpretation of a float value as its
32-bit pattern, used to instantiate the abstract checksum argument with a
fully concrete function in closed statements.  Only its determinism and
value-dependence matter at the store's level of abstraction. -/
def qEnc (q : ℚ) : ℕ :=
  q.num.natAbs * 2 ^ 12 + q.den % 2 ^ 11 * 2 + (if q.num < 0 then 1 else 0)

/-- Concrete checksum over rational float values: `simpleChecksum` applied
to the encoded bit patterns. -/
def cksQ (a b : ℚ) : ℕ :=
  simpleChecksum (qEnc a) (qEnc b)

/- ------------------------------------------------------------------ -/
/- Calibration engine: considerLockMax (sketch.ino lines 985-995)     -/
/- ------------------------------------------------------------------ -/

/-- State touched by `considerLockMax`: the captured `gasRawMin`, the
tracked `gasRawMax` (NaN, i.e. `none`, until the first sample), the lock
flag, the stability counter, and a count of `saveCalibration` invocations
(the firmware calls `saveCalibration()` exactly at the lock transition). -/
structure LockState where
  gasRawMin : ℚ
  gasRawMax : Option ℚ
  gasMaxLocked : Bool
  gasStableCount : ℕ
  saveCount : ℕ
deriving DecidableEq

/-- Embedding of `considerLockMax(float raw)` (lines 985-995).  If locked,
do nothing.  Otherwise: a sample above the tracked max (or the very first
sample) replaces the max and resets the counter, any other sample
increments the counter; once the counter reaches `STABLE_CYCLES_MAX`, a
span below 30 rejects the lock and resets the counter, otherwise the engine
locks and saves. -/
def considerLockMax (s : LockState) (raw : ℚ) : LockState :=
  if s.gasMaxLocked then s
  else
    let s1 :=
      match s.gasRawMax with
      | none => { s with gasRawMax := some raw, gasStableCount := 0 }
      | some m =>
        if raw > m then { s with gasRawMax := some raw, gasStableCount := 0 }
        else { s with gasStableCount := s.gasStableCount + 1 }
    match s1.gasRawMax with
    | none => s1
    | some m =>
      if s1.gasStableCount ≥ STABLE_CYCLES_MAX then
        if m - s1.gasRawMin < 30 then { s1 with gasStableCount := 0 }
        else { s1 with gasMaxLocked := true, saveCount := s1.saveCount + 1 }
      else s1

/-- Feeding a raw-sample sequence to the LEARNING_MAX step, sample by
sample. -/
def runLock (s : LockState) (l : List ℚ) : LockState :=
  l.foldl considerLockMax s

/-- Initial LEARNING_MAX state right after `captureGasMin` set `gasRawMin`:
no tracked max yet, not locked, counter zero, nothing saved. -/
def lockInit (mn : ℚ) : LockState :=
  ⟨mn, none, false, 0, 0⟩

/- ------------------------------------------------------------------ -/
/- Value mapper: linearRatio / mapGasToPPM (sketch.ino 997-1013)      -/
/- ------------------------------------------------------------------ -/

/-- The sequential clamp `if(r<0) r=0; if(r>1) r=1;` from `linearRatio`
(line 1000) and the last-sent ratio reconstruction (line 1216). -/
noncomputable def clamp01 (r : ℝ) : ℝ :=
  if (if r < 0 then 0 else r) > 1 then 1 else if r < 0 then 0 else r

/-- The sequential clamp `if(ppm<PPM_DISPLAY_MIN) ...; if(ppm>PPM_DISPLAY_MAX) ...;`
from `mapGasToPPM` (lines 1010-1011). -/
noncomputable def clampDisplay (p : ℝ) : ℝ :=
  if (if p < PPM_DISPLAY_MIN then PPM_DISPLAY_MIN else p) > PPM_DISPLAY_MAX
  then PPM_DISPLAY_MAX
  else if p < PPM_DISPLAY_MIN then PPM_DISPLAY_MIN else p

/-- Embedding of `linearRatio(float raw)` (lines 997-1002): NaN unless the
range is locked with span above 1; otherwise the position of `raw` in the
locked range, clamped to [0, 1]. -/
noncomputable def linearRatio (locked : Bool) (mn mx raw : ℝ) : Option ℝ :=
  if locked = false ∨ mx ≤ mn + 1 then none
  else some (clamp01 ((raw - mn) / (mx - mn)))

/-- Embedding of `mapGasToPPM(float raw)` (lines 1004-1013) for a non-NaN
raw sample: NaN unless locked and `linearRatio` is defined; otherwise the
logarithmic interpolation between `PPM_MIN` and `PPM_MAX` at the clamped
ratio, clamped to the display range. -/
noncomputable def mapGasToPPM (locked : Bool) (mn mx raw : ℝ) : Option ℝ :=
  if locked = false then none
  else
    match linearRatio locked mn mx raw with
    | none => none
    | some r =>
      some (clampDisplay ((10 : ℝ) ^ (Real.logb 10 PPM_MIN +
        r * (Real.logb 10 PPM_MAX - Real.logb 10 PPM_MIN))))

/- ------------------------------------------------------------------ -/
/- DHT outlier filter (sketch.ino lines 1183-1194)                    -/
/- ------------------------------------------------------------------ -/

/-- Embedding of the per-channel outlier rejection in `loop()`:
`if(!isnan(t)){ if(isnan(lastGood) || fabs(t-lastGood) <= thresh) { cur=t; lastGood=t; } }`.
Takes the channel's current displayed value and `lastGoodValue`, plus the
fresh reading (NaN = `none`), and returns the updated pair
(current value, lastGoodValue). -/
def dhtAccept (thresh : ℚ) (cur lastGood : Option ℚ) (reading : Option ℚ) :
    Option ℚ × Option ℚ :=
  match reading with
  | none => (cur, lastGood)
  | some t =>
    match lastGood with
    | none => (some t, some t)
    | some g => if |t - g| ≤ thresh then (some t, some t) else (cur, lastGood)

/- ------------------------------------------------------------------ -/
/- Change-detection gate and send cycle (sketch.ino lines 1196-1258)  -/
/- ------------------------------------------------------------------ -/

/-- Global firmware state read and written by one iteration of the
send-decision part of `loop()`. -/
structure SysState where
  gasRawMin : ℝ
  gasRawMax : ℝ
  gasMaxLocked : Bool
  gasPpmEma : Option ℝ
  dhtTemp : Option ℝ
  dhtHumi : Option ℝ
  lastSentTemp : Option ℝ
  lastSentHumi : Option ℝ
  lastSentGasPPM : Option ℝ
  lastSentProx : Option ℝ
  lastSentMotion : ℤ
  gasMetaSent : Bool
  lastPost : ℕ

/-- External inputs consumed by one iteration: the clock reading, the fresh
gas block average (always a number), the proximity reading (`none` = NaN),
the motion reading, WiFi connectivity, and the outcome the transport would
report for a POST this cycle. -/
structure CycleIn where
  now : ℕ
  raw : ℝ
  curProx : Option ℝ
  curMotion : ℤ
  wifiUp : Bool
  postOk : Bool

/-- Line 1197: `ppmInstant = gasMaxLocked ? mapGasToPPM(raw) : NAN`. -/
noncomputable def ppmInstantOf (s : SysState) (i : CycleIn) : Option ℝ :=
  if s.gasMaxLocked then
    mapGasToPPM s.gasMaxLocked s.gasRawMin s.gasRawMax i.raw
  else none

/-- Lines 1198-1201: the exponential moving average update, which runs when
locked and the instantaneous estimate is a number. -/
noncomputable def emaNextOf (s : SysState) (i : CycleIn) : Option ℝ :=
  match ppmInstantOf s i with
  | some p =>
    if s.gasMaxLocked then
      match s.gasPpmEma with
      | none => some p
      | some e => some (e + GAS_PPM_EMA_ALPHA * (p - e))
    else s.gasPpmEma
  | none => s.gasPpmEma

/-- Line 1202: `ppmSend = gasMaxLocked ? gasPpmEma : NAN` (after the EMA
update). -/
noncomputable def ppmSendOf (s : SysState) (i : CycleIn) : Option ℝ :=
  if s.gasMaxLocked then emaNextOf s i else none

/-- Line 1204: `firstSend = isnan(lastSentTemp) && isnan(lastSentHumi) &&
isnan(lastSentGasPPM)` - a JOINT flag over the three channels. -/
def firstSendOf (s : SysState) : Prop :=
  s.lastSentTemp = none ∧ s.lastSentHumi = none ∧ s.lastSentGasPPM = none

/-- Lines 1206-1207: the temperature changed flag. -/
noncomputable def tempChangedOf (s : SysState) : Prop :=
  (∃ t lt : ℝ, s.dhtTemp = some t ∧ s.lastSentTemp = some lt ∧
    |t - lt| ≥ TEMP_DELTA_MIN) ∨
  (firstSendOf s ∧ s.dhtTemp ≠ none)

/-- Lines 1208-1209: the humidity changed flag. -/
noncomputable def humiChangedOf (s : SysState) : Prop :=
  (∃ h lh : ℝ, s.dhtHumi = some h ∧ s.lastSentHumi = some lh ∧
    |h - lh| ≥ HUMI_DELTA_MIN) ∨
  (firstSendOf s ∧ s.dhtHumi ≠ none)

/-- Line 1211: `curRatio = linearRatio(raw)`. -/
noncomputable def curRatioOf (s : SysState) (i : CycleIn) : Option ℝ :=
  linearRatio s.gasMaxLocked s.gasRawMin s.gasRawMax i.raw

/-- Lines 1212-1218: the ratio-space position of the last sent ppm value,
reconstructed through base-10 logarithms and clamped to [0, 1]; NaN unless
locked with a last sent value. -/
noncomputable def lastRatioOf (s : SysState) : Option ℝ :=
  if s.gasMaxLocked then
    match s.lastSentGasPPM with
    | some p => some (clamp01 ((Real.logb 10 p - Real.logb 10 PPM_MIN) /
        (Real.logb 10 PPM_MAX - Real.logb 10 PPM_MIN)))
    | none => none
  else none

/-- Line 1219: the ratio-space gas trigger. -/
noncomputable def gasChangedRatioOf (s : SysState) (i : CycleIn) : Prop :=
  s.gasMaxLocked = true ∧ ∃ cr lr : ℝ,
    curRatioOf s i = some cr ∧ lastRatioOf s = some lr ∧
    |cr - lr| ≥ GAS_RATIO_DELTA_MIN

/-- Line 1220: the absolute-ppm gas trigger. -/
noncomputable def gasChangedPpmOf (s : SysState) (i : CycleIn) : Prop :=
  s.gasMaxLocked = true ∧ ∃ ps lg : ℝ,
    ppmSendOf s i = some ps ∧ s.lastSentGasPPM = some lg ∧
    |ps - lg| ≥ GAS_PPM_DELTA_MIN

/-- Line 1221: the combined gas changed flag. -/
noncomputable def gasChangedOf (s : SysState) (i : CycleIn) : Prop :=
  gasChangedRatioOf s i ∨ gasChangedPpmOf s i ∨
  (firstSendOf s ∧ s.gasMaxLocked = true ∧ ppmSendOf s i ≠ none)

/-- Lines 1226-1227: the proximity changed flag (per-channel first-reading
clause). -/
noncomputable def proxChangedOf (s : SysState) (i : CycleIn) : Prop :=
  (∃ cp lp : ℝ, i.curProx = some cp ∧ s.lastSentProx = some lp ∧
    |cp - lp| ≥ PROX_DELTA_MIN) ∨
  (s.lastSentProx = none ∧ i.curProx ≠ none)

/-- Line 1228: `motionChanged = (curMotion != lastSentMotion)`. -/
def motionChangedOf (s : SysState) (i : CycleIn) : Prop :=
  i.curMotion ≠ s.lastSentMotion

/-- Line 1230. -/
noncomputable def anyChangedOf (s : SysState) (i : CycleIn) : Prop :=
  tempChangedOf s ∨ humiChangedOf s ∨ gasChangedOf s i ∨ proxChangedOf s i ∨
  motionChangedOf s i

/-- Line 1231: minimum inter-send gap reached. -/
def minGapOf (s : SysState) (i : CycleIn) : Prop :=
  i.now - s.lastPost ≥ MIN_POST_INTERVAL

/-- Line 1232: forced heartbeat due. -/
def forceDueOf (s : SysState) (i : CycleIn) : Prop :=
  i.now - s.lastPost ≥ FORCE_INTERVAL

/-- Line 1234: the emission decision `(anyChanged && minGap) || forceDue`. -/
noncomputable def attemptOf (s : SysState) (i : CycleIn) : Prop :=
  (anyChangedOf s i ∧ minGapOf s i) ∨ forceDueOf s i

/-- A POST is actually attempted when the emission decision fires and WiFi
is connected (lines 1234, 1245-1246). -/
noncomputable def postAttemptedOf (s : SysState) (i : CycleIn) : Prop :=
  attemptOf s i ∧ i.wifiUp = true

/-- Lines 1066-1076 of `buildPayload`: the calibration metadata fields
(`min`, `max`, `cal_src`) are attached to the gas reading exactly when the
range is locked, the gas estimate passed in is a number, and `gasMetaSent`
is still false. -/
def payloadGasMeta (s : SysState) (gasPpm : Option ℝ) : Prop :=
  s.gasMaxLocked = true ∧ gasPpm ≠ none ∧ s.gasMetaSent = false

open scoped Classical

/-- One iteration of the send-decision part of `loop()` (lines 1196-1258):
the EMA always advances; if the emission decision fires with WiFi up, a
POST is made and on success the baselines update (temp/humi/gas gated on
their changed flags, proximity gated only on a non-NaN reading, motion
unconditionally) and `gasMetaSent` latches; `lastPost` is set whenever the
decision fires, success or not. -/
noncomputable def cycle (s : SysState) (i : CycleIn) : SysState :=
  if attemptOf s i then
    if i.wifiUp then
      if i.postOk then
        { s with
          gasPpmEma := emaNextOf s i,
          lastPost := i.now,
          lastSentTemp :=
            if tempChangedOf s ∧ s.dhtTemp ≠ none then s.dhtTemp
            else s.lastSentTemp,
          lastSentHumi :=
            if humiChangedOf s ∧ s.dhtHumi ≠ none then s.dhtHumi
            else s.lastSentHumi,
          lastSentGasPPM :=
            if gasChangedOf s i ∧ ppmSendOf s i ≠ none then ppmSendOf s i
            else s.lastSentGasPPM,
          gasMetaSent :=
            if gasChangedOf s i ∧ ppmSendOf s i ≠ none then true
            else s.gasMetaSent,
          lastSentProx :=
            if i.curProx ≠ none then i.curProx else s.lastSentProx,
          lastSentMotion := i.curMotion }
      else { s with gasPpmEma := emaNextOf s i, lastPost := i.now }
    else { s with gasPpmEma := emaNextOf s i, lastPost := i.now }
  else { s with gasPpmEma := emaNextOf s i }

/-- Quiescent state for the heartbeat witness: nothing ever sent, nothing
changing. -/
def sC7 : SysState := ⟨0, 0, false, none, none, none, none, none, none, none, -1, false, 0⟩

/-- Heartbeat witness input: 25000 ms after the last post, WiFi up, no
readings. -/
def iC7 : CycleIn := ⟨25000, 0, none, -1, true, true⟩

/- ------------------------------------------------------------------ -/
/- Claim C2                                                           -/
/- ------------------------------------------------------------------ -/

/-- Counterexample state for the change-gate first-send claim: temperature
has already been sent (`lastSentTemp = some 20`), humidity never has
(`lastSentHumi = none`), and a first valid humidity reading 50 is
present. -/
def sC2 : SysState := ⟨0, 0, false, none, some 20, some 50, some 20, none, none, none, -1, false, 0⟩

/-- First-cycle state for the amended-claim witness: locked range [0, 100],
an EMA already running, nothing ever sent, motion baseline still -1. -/
def sC2w : SysState := ⟨0, 100, true, some 10, some 20, some 50, none, none, none, none, -1, false, 0⟩

/-- First-cycle input for the amended-claim witness. -/
def iC2w : CycleIn := ⟨3000, 50, some 12, 1, true, true⟩

/- ------------------------------------------------------------------ -/
/- Claim C3                                                           -/
/- ------------------------------------------------------------------ -/

/-- Counterexample state for the baseline-update claim: a temperature delta
of 10 degrees triggers the send, humidity and motion are unchanged, and
proximity moved only 1 cm (below its 2 cm threshold) from baseline 10 to
reading 11. -/
def sC3 : SysState := ⟨0, 0, false, none, some 30, some 50, some 20, some 50, none, some 10, 0, false, 0⟩

/-- Counterexample input for the baseline-update claim: proximity reading
11, motion 0 (equal to its baseline), WiFi up, POST succeeds. -/
def iC3 : CycleIn := ⟨3000, 0, some 11, 0, true, true⟩

/-- First-transmission state for the metadata witness: locked range
[0, 100], nothing sent yet, metadata not yet emitted. -/
def sC10 : SysState := ⟨0, 100, true, none, none, none, none, none, none, none, -1, false, 0⟩

/-- The same state after the metadata has been emitted. -/
def sC10b : SysState := ⟨0, 100, true, none, none, none, none, none, none, none, -1, true, 0⟩

/-- Input for the metadata witness: a gas sample at mid range, heartbeat
due, WiFi up, POST succeeds. -/
def iC10 : CycleIn := ⟨30000, 50, none, -1, true, true⟩

/- ------------------------------------------------------------------ -/
/- Claim C1                                                           -/
/- ------------------------------------------------------------------ -/

/-- Helper: xor by a fixed value is injective on naturals. -/
theorem xor_right_cancel {x y t : ℕ} (h : x ^^^ t = y ^^^ t) :
    x = y := by
  have h2 : x ^^^ t ^^^ t = y ^^^ t ^^^ t := by rw [h]
  simpa [Nat.xor_assoc, Nat.xor_self, Nat.xor_zero] using h2

/-- Claim C1, counterexample.  The claim asserts that ANY change to the bit
pattern of either float changes the checksum.  Flipping the top (sign) bit
of the second float does not: with the bit patterns of 100.0f (0x42C80000),
500.0f (0x43FA0000) and -500.0f (0xC3FA0000), the checksums of (100, 500)
and (100, -500) coincide because the uint32 left shift discards bit 31 of
the second argument. -/
theorem C1_counterexample :
    simpleChecksum 0x42C80000 0x43FA0000 = simpleChecksum 0x42C80000 0xC3FA0000 ∧
    (0x43FA0000 : ℕ) ≠ (0xC3FA0000 : ℕ) := by
  constructor
  · rfl
  · decide

/-- Claim C1, amended: verifying the stored tag against the checksum of the
same pair always succeeds; any change to the first float's bit pattern
changes the checksum, and any change to the second float's bit pattern
WITHIN ITS LOW 31 BITS changes the checksum (so verification fails); a
change that only flips bit 31 of the second float leaves the checksum
unchanged, because the uint32 shift `*pb << 1` discards that bit. -/
theorem C1_amended (a a' b b' : ℕ) (ha : a < 2 ^ 32) (ha' : a' < 2 ^ 32)
    (hb : b < 2 ^ 32) (hb' : b' < 2 ^ 32) (hane : a ≠ a')
    (hbne : b % 2 ^ 31 ≠ b' % 2 ^ 31) :
    verifyChecksum a b (simpleChecksum a b) = true ∧
    simpleChecksum a' b ≠ simpleChecksum a b ∧
    simpleChecksum a b' ≠ simpleChecksum a b := by
  have hmulmod : ∀ c : ℕ, c < 2 ^ 32 → c % 2 ^ 32 * 2 % 2 ^ 32 = c % 2 ^ 31 * 2 := by
    intro c hc
    omega
  refine ⟨?_, ?_, ?_⟩
  · simp [verifyChecksum]
  · intro h
    apply hane
    have h1 := xor_right_cancel h
    have h2 := xor_right_cancel h1
    omega
  · intro h
    apply hbne
    have h1 := xor_right_cancel h
    have h3 : (a % 2 ^ 32) ^^^ (b' % 2 ^ 32 * 2 % 2 ^ 32)
        = (a % 2 ^ 32) ^^^ (b % 2 ^ 32 * 2 % 2 ^ 32) := h1
    have h4 : b' % 2 ^ 32 * 2 % 2 ^ 32 = b % 2 ^ 32 * 2 % 2 ^ 32 := by
      have h5 : (a % 2 ^ 32) ^^^ ((a % 2 ^ 32) ^^^ (b' % 2 ^ 32 * 2 % 2 ^ 32))
          = (a % 2 ^ 32) ^^^ ((a % 2 ^ 32) ^^^ (b % 2 ^ 32 * 2 % 2 ^ 32)) := by
        rw [h3]
      simpa [← Nat.xor_assoc, Nat.xor_self, Nat.zero_xor] using h5
    rw [hmulmod b hb, hmulmod b' hb'] at h4
    omega

/-- Claim C1 amended, witness: concrete instantiation at the bit patterns of
100.0f and 500.0f, with the first float perturbed to pattern 1 and the
second perturbed to pattern 0 (a low-31-bit change). -/
theorem C1_amended_witness :
    verifyChecksum 0x42C80000 0x43FA0000 (simpleChecksum 0x42C80000 0x43FA0000) = true ∧
    simpleChecksum 1 0x43FA0000 ≠ simpleChecksum 0x42C80000 0x43FA0000 ∧
    simpleChecksum 0x42C80000 0 ≠ simpleChecksum 0x42C80000 0x43FA0000 :=
  C1_amended 0x42C80000 1 0x43FA0000 0 (by decide) (by decide) (by decide)
    (by decide) (by decide) (by decide)

/- ------------------------------------------------------------------ -/
/- Claim C4                                                           -/
/- ------------------------------------------------------------------ -/

/-- Claim C4, counterexample.  The claim asserts that every stored record
with span `rawMax - rawMin < 30` is rejected.  The firmware accepts any
record with `sMax > sMin + 29`, so a record with min 0 and max 29.5 (span
29.5, strictly below 30) with matching version and checksum loads
successfully. -/
theorem C4_counterexample :
    (29.5 : ℚ) - 0 < 30 ∧
    loadCalibration cksQ ⟨CAL_VERSION, some 0, some 29.5, cksQ 0 29.5⟩ =
      some ⟨0, 29.5, true, true⟩ := by
  constructor
  · norm_num
  · norm_num [loadCalibration, CAL_VERSION]

/-- Claim C4, amended: a stored record whose span `rawMax - rawMin` is at
most 29 is always rejected by `loadCalibration` (fails open), regardless of
the record's other field values; spans strictly between 29 and 30 are
accepted when everything else is valid, so the rejection threshold is
"span <= 29", not "span < 30". -/
theorem C4_amended (cks : ℚ → ℚ → ℕ) (r : CalRecord) (sMin sMax : ℚ)
    (hmin : r.smin = some sMin) (hmax : r.smax = some sMax)
    (hspan : sMax - sMin ≤ 29) :
    loadCalibration cks r = none := by
  unfold loadCalibration
  split
  · rfl
  · split
    · rfl
    · rw [hmin, hmax]
      have hnot : ¬(0 ≤ sMin ∧ sMax ≤ 4095 ∧ sMax > sMin + 29) := by
        intro hc
        linarith [hc.2.2]
      simp only [hnot, if_false]

/-- Claim C4 amended, witness: a concrete record with span exactly 29 is
rejected. -/
theorem C4_amended_witness :
    ((29 : ℚ) - 0 ≤ 29) ∧
    loadCalibration cksQ ⟨CAL_VERSION, some 0, some 29, cksQ 0 29⟩ = none :=
  ⟨by norm_num,
   C4_amended cksQ ⟨CAL_VERSION, some 0, some 29, cksQ 0 29⟩ 0 29 rfl rfl
     (by norm_num)⟩

/- ------------------------------------------------------------------ -/
/- Claim C9                                                           -/
/- ------------------------------------------------------------------ -/

/-- Claim C9: round-trip of calibration persistence.  For every in-memory
calibration state reachable through a lock (locked, `0 <= gasRawMin <
gasRawMax <= 4095`, span at least 30), loading the record written by
`saveCalibration` through a faithful key/value store succeeds and restores
exactly the same range, with `gasMaxLocked = true` and
`usedStoredCalibration = true`.  Stated for every deterministic checksum
function, which includes the firmware's bit-pattern checksum. -/
theorem C9_roundtrip (cks : ℚ → ℚ → ℕ) (mn mx : ℚ) (h0 : 0 ≤ mn)
    (h1 : mn < mx) (h2 : mx ≤ 4095) (h3 : mx - mn ≥ 30) :
    ∃ rec : CalRecord,
      saveCalibration cks true mn mx = some rec ∧
      loadCalibration cks rec = some ⟨mn, mx, true, true⟩ := by
  refine ⟨⟨CAL_VERSION, some mn, some mx, cks mn mx⟩, rfl, ?_⟩
  unfold loadCalibration CAL_VERSION
  have hrange : 0 ≤ mn ∧ mx ≤ 4095 ∧ mx > mn + 29 := ⟨h0, h2, by linarith⟩
  simp [hrange]

/-- Claim C9, witness: the round trip at the end-to-end scenario values
min 100, max 500 with the concrete model checksum. -/
theorem C9_roundtrip_witness :
    ∃ rec : CalRecord,
      saveCalibration cksQ true 100 500 = some rec ∧
      loadCalibration cksQ rec = some ⟨100, 500, true, true⟩ :=
  C9_roundtrip cksQ 100 500 (by norm_num) (by norm_num) (by norm_num)
    (by norm_num)

theorem runLock_append (s : LockState) (l1 l2 : List ℚ) :
    runLock s (l1 ++ l2) = runLock (runLock s l1) l2 := by
  simp [runLock, List.foldl_append]

theorem considerLockMax_locked (s : LockState) (raw : ℚ)
    (h : s.gasMaxLocked = true) : considerLockMax s raw = s := by
  simp [considerLockMax, h]

theorem runLock_locked (s : LockState) (l : List ℚ)
    (h : s.gasMaxLocked = true) : runLock s l = s := by
  induction l with
  | nil => rfl
  | cons x xs ih =>
    simp only [runLock, List.foldl_cons]
    rw [considerLockMax_locked s x h]
    exact ih

theorem considerLockMax_none (mn raw : ℚ) (k sv : ℕ) :
    considerLockMax ⟨mn, none, false, k, sv⟩ raw = ⟨mn, some raw, false, 0, sv⟩ := by
  simp [considerLockMax, STABLE_CYCLES_MAX]

theorem considerLockMax_gt (mn m raw : ℚ) (k sv : ℕ) (h : raw > m) :
    considerLockMax ⟨mn, some m, false, k, sv⟩ raw = ⟨mn, some raw, false, 0, sv⟩ := by
  simp [considerLockMax, STABLE_CYCLES_MAX, h]

theorem considerLockMax_le (mn m raw : ℚ) (k sv : ℕ) (h : ¬ raw > m)
    (hk : k + 1 < STABLE_CYCLES_MAX) :
    considerLockMax ⟨mn, some m, false, k, sv⟩ raw = ⟨mn, some m, false, k + 1, sv⟩ := by
  simp [considerLockMax, h, Nat.not_le.mpr hk]

theorem considerLockMax_lockStep (mn m raw : ℚ) (k sv : ℕ) (h : ¬ raw > m)
    (hk : k + 1 ≥ STABLE_CYCLES_MAX) (hspan : ¬ m - mn < 30) :
    considerLockMax ⟨mn, some m, false, k, sv⟩ raw = ⟨mn, some m, true, k + 1, sv + 1⟩ := by
  simp [considerLockMax, h, hk, hspan]

/-- During a strictly rising run the tracked max follows the samples and the
stability counter stays at zero, so no lock can fire. -/
theorem runLock_rise (mn v : ℚ) (sv : ℕ) (l : List ℚ) :
    ∀ c : ℚ, List.Chain (· < ·) c l → c < v → (∀ x ∈ l, x < v) →
      ∃ L : ℚ, L < v ∧
        runLock ⟨mn, some c, false, 0, sv⟩ l = ⟨mn, some L, false, 0, sv⟩ := by
  induction l with
  | nil =>
    intro c _ hc _
    exact ⟨c, hc, rfl⟩
  | cons x xs ih =>
    intro c hchain hc hmem
    rcases List.chain_cons.mp hchain with ⟨hcx, hxs⟩
    have hx : x < v := hmem x (List.mem_cons_self x xs)
    have hmem' : ∀ y ∈ xs, y < v := fun y hy => hmem y (List.mem_cons_of_mem x hy)
    obtain ⟨L, hL, hrun⟩ := ih x hxs hx hmem'
    refine ⟨L, hL, ?_⟩
    simp only [runLock, List.foldl_cons]
    rw [show considerLockMax ⟨mn, some c, false, 0, sv⟩ x = ⟨mn, some x, false, 0, sv⟩
      from considerLockMax_gt mn c x 0 sv hcx]
    exact hrun

/-- A flat hold short of the stability threshold only advances the
counter. -/
theorem runLock_flat (mn v : ℚ) (sv : ℕ) (j : ℕ) :
    ∀ k : ℕ, k + j < STABLE_CYCLES_MAX →
      runLock ⟨mn, some v, false, k, sv⟩ (List.replicate j v) =
        ⟨mn, some v, false, k + j, sv⟩ := by
  induction j with
  | zero => intro k _; rfl
  | succ j ih =>
    intro k hk
    rw [List.replicate_succ]
    simp only [runLock, List.foldl_cons]
    rw [considerLockMax_le mn v v k sv (lt_irrefl v) (by omega)]
    have := ih (k + 1) (by omega)
    simp only [runLock] at this
    rw [this]
    congr 1
    omega

/- ------------------------------------------------------------------ -/
/- Claim C5                                                           -/
/- ------------------------------------------------------------------ -/

/-- Claim C5, counterexample.  The claim asserts that a monotone rise
followed by a flat hold of at least `STABLE_CYCLES_MAX = 25` samples locks
the engine at the flat value.  With `rawMin = 0`, the strictly rising
prefix [100, 200] and exactly 25 samples at the flat value 500 (well over
30 above rawMin), the engine does NOT lock: the first flat sample replaces
the tracked max and resets the counter, so the counter only reaches 24 and
no save occurs. -/
theorem C5_counterexample :
    (500 : ℚ) - 0 ≥ 30 ∧
    runLock (lockInit 0) ([100, 200] ++ List.replicate STABLE_CYCLES_MAX 500) =
      ⟨0, some 500, false, 24, 0⟩ := by
  constructor
  · norm_num
  · decide

/-- Claim C5, amended: after the rawMin capture, if the raw-sample sequence
rises strictly monotonically (staying below the flat value) and then holds
flat at a value `v` at least 30 above `rawMin` for at least
`STABLE_CYCLES_MAX + 1 = 26` samples (the first flat sample establishes the
tracked max, the following 25 accumulate the stability count), then the
engine transitions to LOCKED with `rawMax` equal to the flat-hold value and
invokes `saveCalibration` exactly once; further flat samples change
nothing. -/
theorem C5_amended (mn v : ℚ) (rise : List ℚ) (m : ℕ)
    (hchain : rise.Chain' (· < ·)) (hlt : ∀ x ∈ rise, x < v)
    (hspan : v - mn ≥ 30) (hm : m ≥ STABLE_CYCLES_MAX + 1) :
    runLock (lockInit mn) (rise ++ List.replicate m v) =
      ⟨mn, some v, true, STABLE_CYCLES_MAX, 1⟩ := by
  have hm26 : m ≥ 26 := by
    simpa [STABLE_CYCLES_MAX] using hm
  have key : rise ++ List.replicate m v =
      ((rise ++ [v]) ++ List.replicate 24 v) ++ ([v] ++ List.replicate (m - 26) v) := by
    conv_lhs => rw [show m = (1 + 24) + (1 + (m - 26)) from by omega]
    rw [List.replicate_add, List.replicate_add, List.replicate_add]
    simp [List.replicate_one, List.append_assoc]
  have hAfterFirst : runLock (lockInit mn) (rise ++ [v]) = ⟨mn, some v, false, 0, 0⟩ := by
    cases rise with
    | nil =>
      simp only [List.nil_append]
      simpa [runLock, lockInit] using considerLockMax_none mn v 0 0
    | cons r rest =>
      have hchainr : List.Chain (· < ·) r rest := hchain
      have hr : r < v := hlt r (List.mem_cons_self r rest)
      have hmemr : ∀ x ∈ rest, x < v := fun x hx => hlt x (List.mem_cons_of_mem r hx)
      obtain ⟨L, hL, hrun⟩ := runLock_rise mn v 0 rest r hchainr hr hmemr
      rw [runLock_append]
      have hfirst : runLock (lockInit mn) (r :: rest) = ⟨mn, some L, false, 0, 0⟩ := by
        simp only [runLock, List.foldl_cons]
        rw [show considerLockMax (lockInit mn) r = ⟨mn, some r, false, 0, 0⟩ from
          considerLockMax_none mn r 0 0]
        exact hrun
      rw [hfirst]
      simpa [runLock] using considerLockMax_gt mn L v 0 0 hL
  have hFlat24 : runLock ⟨mn, some v, false, 0, 0⟩ (List.replicate 24 v) =
      ⟨mn, some v, false, 24, 0⟩ := by
    simpa using runLock_flat mn v 0 24 0 (by norm_num [STABLE_CYCLES_MAX])
  have hLockStep : runLock ⟨mn, some v, false, 24, 0⟩ [v] =
      ⟨mn, some v, true, 25, 1⟩ := by
    simpa [runLock] using considerLockMax_lockStep mn v v 24 0 (lt_irrefl v)
      (by norm_num [STABLE_CYCLES_MAX]) (not_lt.mpr hspan)
  rw [key, runLock_append, runLock_append, runLock_append, hAfterFirst, hFlat24,
    hLockStep, runLock_locked _ _ rfl]
  simp [STABLE_CYCLES_MAX]

/-- Claim C5 amended, witness: rawMin 0, rise [100, 200], flat value 500
held for 26 samples locks at rawMax 500 with exactly one save. -/
theorem C5_amended_witness :
    runLock (lockInit 0) ([100, 200] ++ List.replicate 26 500) =
      ⟨0, some 500, true, STABLE_CYCLES_MAX, 1⟩ :=
  C5_amended 0 500 [100, 200] 26 (by norm_num [List.chain'_cons, List.chain'_singleton])
    (by intro x hx; fin_cases hx <;> norm_num) (by norm_num)
    (by norm_num [STABLE_CYCLES_MAX])

theorem clamp01_mono {a b : ℝ} (h : a ≤ b) : clamp01 a ≤ clamp01 b := by
  unfold clamp01
  split_ifs <;> linarith

theorem clamp01_nonneg (a : ℝ) : 0 ≤ clamp01 a := by
  unfold clamp01
  split_ifs <;> linarith

theorem clampDisplay_mono {a b : ℝ} (h : a ≤ b) :
    clampDisplay a ≤ clampDisplay b := by
  unfold clampDisplay PPM_DISPLAY_MIN PPM_DISPLAY_MAX
  split_ifs <;> linarith

theorem clampDisplay_bounds (a : ℝ) :
    PPM_DISPLAY_MIN ≤ clampDisplay a ∧ clampDisplay a ≤ PPM_DISPLAY_MAX := by
  unfold clampDisplay PPM_DISPLAY_MIN PPM_DISPLAY_MAX
  split_ifs <;> constructor <;> linarith

/- ------------------------------------------------------------------ -/
/- Claim C6                                                           -/
/- ------------------------------------------------------------------ -/

/-- Claim C6: for a locked calibration range with `rawMax > rawMin + 1` and
raw inputs `x <= y` (reals; the C NaN case is excluded by the claim),
`mapGasToPPM` is defined on both, non-decreasing, and its output always
lies in the display range `[PPM_DISPLAY_MIN, PPM_DISPLAY_MAX] = [1, 5000]`,
including for raw inputs outside `[rawMin, rawMax]`. -/
theorem C6_monotone_bounded (mn mx x y : ℝ) (hspan : mn + 1 < mx)
    (hxy : x ≤ y) :
    ∃ px py : ℝ,
      mapGasToPPM true mn mx x = some px ∧
      mapGasToPPM true mn mx y = some py ∧
      px ≤ py ∧
      PPM_DISPLAY_MIN ≤ px ∧ px ≤ PPM_DISPLAY_MAX ∧
      PPM_DISPLAY_MIN ≤ py ∧ py ≤ PPM_DISPLAY_MAX := by
  have hcond : ¬((true : Bool) = false ∨ mx ≤ mn + 1) := by
    push_neg
    exact ⟨by simp, by linarith⟩
  have hd : (0 : ℝ) < mx - mn := by linarith
  have hratio : (x - mn) / (mx - mn) ≤ (y - mn) / (mx - mn) :=
    (div_le_div_right hd).mpr (by linarith)
  have hr : clamp01 ((x - mn) / (mx - mn)) ≤ clamp01 ((y - mn) / (mx - mn)) :=
    clamp01_mono hratio
  have hDelta : Real.logb 10 PPM_MIN < Real.logb 10 PPM_MAX := by
    have h1 : (0 : ℝ) < PPM_MIN := by norm_num [PPM_MIN]
    have h2 : PPM_MIN < PPM_MAX := by norm_num [PPM_MIN, PPM_MAX]
    exact Real.logb_lt_logb (by norm_num) h1 h2
  have hE : Real.logb 10 PPM_MIN + clamp01 ((x - mn) / (mx - mn)) *
        (Real.logb 10 PPM_MAX - Real.logb 10 PPM_MIN) ≤
      Real.logb 10 PPM_MIN + clamp01 ((y - mn) / (mx - mn)) *
        (Real.logb 10 PPM_MAX - Real.logb 10 PPM_MIN) := by
    have hmul := mul_le_mul_of_nonneg_right hr (by linarith :
      (0 : ℝ) ≤ Real.logb 10 PPM_MAX - Real.logb 10 PPM_MIN)
    linarith
  have hpow : (10 : ℝ) ^ (Real.logb 10 PPM_MIN + clamp01 ((x - mn) / (mx - mn)) *
        (Real.logb 10 PPM_MAX - Real.logb 10 PPM_MIN)) ≤
      (10 : ℝ) ^ (Real.logb 10 PPM_MIN + clamp01 ((y - mn) / (mx - mn)) *
        (Real.logb 10 PPM_MAX - Real.logb 10 PPM_MIN)) :=
    Real.rpow_le_rpow_of_exponent_le (by norm_num) hE
  refine ⟨_, _, ?_, ?_, clampDisplay_mono hpow, (clampDisplay_bounds _).1,
    (clampDisplay_bounds _).2, (clampDisplay_bounds _).1, (clampDisplay_bounds _).2⟩
  · simp [mapGasToPPM, linearRatio, hcond, not_le.mpr (by linarith : mn + 1 < mx)]
  · simp [mapGasToPPM, linearRatio, hcond, not_le.mpr (by linarith : mn + 1 < mx)]

/-- Claim C6, witness: locked range [0, 100] with raw inputs -50 and 4200
(both outside the range on either side). -/
theorem C6_monotone_bounded_witness :
    ∃ px py : ℝ,
      mapGasToPPM true 0 100 (-50) = some px ∧
      mapGasToPPM true 0 100 4200 = some py ∧
      px ≤ py ∧
      PPM_DISPLAY_MIN ≤ px ∧ px ≤ PPM_DISPLAY_MAX ∧
      PPM_DISPLAY_MIN ≤ py ∧ py ≤ PPM_DISPLAY_MAX :=
  C6_monotone_bounded 0 100 (-50) 4200 (by norm_num) (by norm_num)

/- ------------------------------------------------------------------ -/
/- Claim C8                                                           -/
/- ------------------------------------------------------------------ -/

/-- Claim C8: with the firmware's spike thresholds (15.0 for temperature,
20.0 for humidity), a new reading updates `lastGoodValue` and the channel's
current value exactly when it is non-NaN and either `lastGoodValue` is
unset or within the spike threshold of it; a NaN or out-of-threshold
reading leaves both unchanged, and after a rejection a subsequent reading
within the threshold of the retained `lastGoodValue` is accepted. -/
theorem C8_outlier_filter (thresh : ℚ) (cur lastGood : Option ℚ) :
    TEMP_SPIKE_MAX_DIFF = 15 ∧ HUMI_SPIKE_MAX_DIFF = 20 ∧
    (∀ t : ℚ, dhtAccept thresh cur none (some t) = (some t, some t)) ∧
    (∀ t g : ℚ, lastGood = some g → |t - g| ≤ thresh →
      dhtAccept thresh cur lastGood (some t) = (some t, some t)) ∧
    (∀ t g : ℚ, lastGood = some g → ¬ |t - g| ≤ thresh →
      dhtAccept thresh cur lastGood (some t) = (cur, lastGood)) ∧
    dhtAccept thresh cur lastGood none = (cur, lastGood) ∧
    (∀ t g t' : ℚ, lastGood = some g → ¬ |t - g| ≤ thresh → |t' - g| ≤ thresh →
      dhtAccept thresh
        (dhtAccept thresh cur lastGood (some t)).1
        (dhtAccept thresh cur lastGood (some t)).2 (some t') =
        (some t', some t')) := by
  refine ⟨rfl, rfl, ?_, ?_, ?_, rfl, ?_⟩
  · intro t
    rfl
  · intro t g hg ht
    simp [dhtAccept, hg, ht]
  · intro t g hg ht
    simp [dhtAccept, hg, ht]
  · intro t g t' hg ht ht'
    simp [dhtAccept, hg, ht, ht']

/-- Claim C8, witness: temperature channel with `lastGoodValue` 25: the
spike reading 45 is rejected (deviation 20 above threshold 15) and leaves
the state unchanged; the following reading 30 (deviation 5) is accepted. -/
theorem C8_outlier_filter_witness :
    dhtAccept TEMP_SPIKE_MAX_DIFF (some 25) (some 25) (some 45) =
      (some 25, some 25) ∧
    dhtAccept TEMP_SPIKE_MAX_DIFF
      (dhtAccept TEMP_SPIKE_MAX_DIFF (some 25) (some 25) (some 45)).1
      (dhtAccept TEMP_SPIKE_MAX_DIFF (some 25) (some 25) (some 45)).2
      (some 30) = (some 30, some 30) := by
  constructor
  · exact (C8_outlier_filter TEMP_SPIKE_MAX_DIFF (some 25) (some 25)).2.2.2.2.1
      45 25 rfl (by norm_num [TEMP_SPIKE_MAX_DIFF])
  · exact (C8_outlier_filter TEMP_SPIKE_MAX_DIFF (some 25) (some 25)).2.2.2.2.2.2
      45 25 30 rfl (by norm_num [TEMP_SPIKE_MAX_DIFF])
      (by norm_num [TEMP_SPIKE_MAX_DIFF])

theorem cycle_success (s : SysState) (i : CycleIn) (ha : attemptOf s i)
    (hw : i.wifiUp = true) (hp : i.postOk = true) :
    cycle s i =
      { s with
        gasPpmEma := emaNextOf s i,
        lastPost := i.now,
        lastSentTemp :=
          if tempChangedOf s ∧ s.dhtTemp ≠ none then s.dhtTemp
          else s.lastSentTemp,
        lastSentHumi :=
          if humiChangedOf s ∧ s.dhtHumi ≠ none then s.dhtHumi
          else s.lastSentHumi,
        lastSentGasPPM :=
          if gasChangedOf s i ∧ ppmSendOf s i ≠ none then ppmSendOf s i
          else s.lastSentGasPPM,
        gasMetaSent :=
          if gasChangedOf s i ∧ ppmSendOf s i ≠ none then true
          else s.gasMetaSent,
        lastSentProx :=
          if i.curProx ≠ none then i.curProx else s.lastSentProx,
        lastSentMotion := i.curMotion } := by
  unfold cycle
  rw [if_pos ha, if_pos hw, if_pos hp]

theorem cycle_postFail (s : SysState) (i : CycleIn) (ha : attemptOf s i)
    (hw : i.wifiUp = true) (hp : i.postOk = false) :
    cycle s i = { s with gasPpmEma := emaNextOf s i, lastPost := i.now } := by
  unfold cycle
  rw [if_pos ha, if_pos hw, if_neg (by simp [hp])]

theorem cycle_noWifi (s : SysState) (i : CycleIn) (ha : attemptOf s i)
    (hw : i.wifiUp = false) :
    cycle s i = { s with gasPpmEma := emaNextOf s i, lastPost := i.now } := by
  unfold cycle
  rw [if_pos ha, if_neg (by simp [hw])]

theorem cycle_noAttempt (s : SysState) (i : CycleIn) (ha : ¬ attemptOf s i) :
    cycle s i = { s with gasPpmEma := emaNextOf s i } := by
  unfold cycle
  rw [if_neg ha]

theorem cycle_metaSent_mono (s : SysState) (i : CycleIn)
    (h : s.gasMetaSent = true) : (cycle s i).gasMetaSent = true := by
  unfold cycle
  split_ifs <;> simp [h]

/-- Inside one loop iteration, a true gas changed flag forces a defined
(non-NaN) `ppmSend`: every disjunct of the flag either mentions `ppmSend`
directly or goes through `curRatio`, whose definedness implies the mapper
produced an instantaneous estimate that fed the EMA this very cycle. -/
theorem ppmSend_ne_none_of_gasChanged (s : SysState) (i : CycleIn)
    (h : gasChangedOf s i) : ppmSendOf s i ≠ none := by
  rcases h with ⟨hlock, cr, lr, hcr, hlr, hge⟩ | ⟨hlock, ps, lg, hps, hlg, hge⟩ |
    ⟨hfs, hlock, hne⟩
  · have hspan : ¬ s.gasRawMax ≤ s.gasRawMin + 1 := by
      intro hs
      rw [curRatioOf] at hcr
      unfold linearRatio at hcr
      rw [if_pos (Or.inr hs)] at hcr
      exact Option.noConfusion hcr
    have hinst : ppmInstantOf s i ≠ none := by
      simp [ppmInstantOf, hlock, mapGasToPPM, linearRatio, hspan]
    obtain ⟨p, hp⟩ := Option.ne_none_iff_exists'.mp hinst
    cases hema : s.gasPpmEma <;>
      simp [ppmSendOf, emaNextOf, hp, hlock, hema]
  · rw [hps]
    simp
  · exact hne

theorem foldl_cycle_metaSent_mono (l : List CycleIn) :
    ∀ s : SysState, s.gasMetaSent = true →
      (l.foldl cycle s).gasMetaSent = true := by
  induction l with
  | nil => intro s hm; exact hm
  | cons x xs ih =>
    intro s hm
    simpa [List.foldl_cons] using ih (cycle s x) (cycle_metaSent_mono s x hm)

/- ------------------------------------------------------------------ -/
/- Claim C7                                                           -/
/- ------------------------------------------------------------------ -/

/-- Claim C7: whenever the elapsed time since the last post reaches
`FORCE_INTERVAL = 25000` ms and WiFi is up, the cycle attempts a
transmission - regardless of the change flags, so in particular when all
readings are held constant and no flag is set - and records the post
time. -/
theorem C7_heartbeat (s : SysState) (i : CycleIn)
    (hf : i.now - s.lastPost ≥ FORCE_INTERVAL) (hw : i.wifiUp = true) :
    postAttemptedOf s i ∧ (cycle s i).lastPost = i.now := by
  have hatt : attemptOf s i := Or.inr hf
  refine ⟨⟨hatt, hw⟩, ?_⟩
  cases hpk : i.postOk with
  | true => rw [cycle_success s i hatt hw hpk]
  | false => rw [cycle_postFail s i hatt hw hpk]

/-- Claim C7, witness: at exactly the forced-heartbeat interval the post is
attempted even though no channel reports a change (all readings absent and
motion equal to its baseline). -/
theorem C7_heartbeat_witness :
    postAttemptedOf sC7 iC7 ∧ (cycle sC7 iC7).lastPost = iC7.now :=
  C7_heartbeat sC7 iC7 (by norm_num [sC7, iC7, FORCE_INTERVAL]) rfl

/-- Claim C2, counterexample.  Humidity's baseline is unset and a valid
reading is available, yet the humidity changed flag is FALSE: the firmware
computes a single joint `firstSend` flag over temperature, humidity and
gas, and because temperature has already been sent the first-reading clause
never fires for humidity. -/
theorem C2_counterexample :
    sC2.lastSentHumi = none ∧ sC2.dhtHumi = some 50 ∧ ¬ humiChangedOf sC2 := by
  refine ⟨rfl, rfl, ?_⟩
  intro h
  rcases h with ⟨hv, lh, hdh, hlh, hge⟩ | ⟨⟨hfs1, hfs2, hfs3⟩, hne⟩
  · exact Option.noConfusion hlh
  · exact Option.noConfusion hfs1

/-- Claim C2, amended: proximity and motion do report changed on their
first valid reading per channel (proximity via its own unset-baseline
clause, motion because the initial baseline -1 differs from every real
reading 0/1); temperature, humidity and gas report changed on a first valid
reading ONLY in a cycle where none of those three channels has ever been
sent (the joint `firstSend` flag); once any of the three has been sent, a
sibling channel whose own baseline is still unset reports changed = false
on its first valid reading. -/
theorem C2_amended (s : SysState) (i : CycleIn) :
    (s.lastSentProx = none → i.curProx ≠ none → proxChangedOf s i) ∧
    (s.lastSentMotion = -1 → (i.curMotion = 0 ∨ i.curMotion = 1) →
      motionChangedOf s i) ∧
    (firstSendOf s → s.dhtTemp ≠ none → tempChangedOf s) ∧
    (firstSendOf s → s.dhtHumi ≠ none → humiChangedOf s) ∧
    (firstSendOf s → s.gasMaxLocked = true → ppmSendOf s i ≠ none →
      gasChangedOf s i) := by
  refine ⟨?_, ?_, ?_, ?_, ?_⟩
  · intro h1 h2
    exact Or.inr ⟨h1, h2⟩
  · intro h1 h2
    unfold motionChangedOf
    rw [h1]
    rcases h2 with h | h <;> rw [h] <;> decide
  · intro h1 h2
    exact Or.inr ⟨h1, h2⟩
  · intro h1 h2
    exact Or.inr ⟨h1, h2⟩
  · intro h1 h2 h3
    exact Or.inr (Or.inr ⟨h1, h2, h3⟩)

/-- Claim C2 amended, witness: on the very first cycle all five channels
report changed. -/
theorem C2_amended_witness :
    proxChangedOf sC2w iC2w ∧ motionChangedOf sC2w iC2w ∧
    tempChangedOf sC2w ∧ humiChangedOf sC2w ∧ gasChangedOf sC2w iC2w := by
  have h := C2_amended sC2w iC2w
  have hppm : ppmSendOf sC2w iC2w ≠ none := by
    norm_num [ppmSendOf, emaNextOf, ppmInstantOf, mapGasToPPM, linearRatio,
      sC2w, iC2w]
    exact Option.some_ne_none _
  exact ⟨h.1 rfl (by simp [iC2w]), h.2.1 rfl (Or.inr rfl),
    h.2.2.1 ⟨rfl, rfl, rfl⟩ (by simp [sC2w]),
    h.2.2.2.1 ⟨rfl, rfl, rfl⟩ (by simp [sC2w]),
    h.2.2.2.2 ⟨rfl, rfl, rfl⟩ rfl hppm⟩

theorem attempt_sC3 : attemptOf sC3 iC3 := by
  refine Or.inl ⟨Or.inl ?_, ?_⟩
  · exact Or.inl ⟨30, 20, rfl, rfl, by norm_num [TEMP_DELTA_MIN]⟩
  · show iC3.now - sC3.lastPost ≥ MIN_POST_INTERVAL
    norm_num [iC3, sC3, MIN_POST_INTERVAL]

/-- Claim C3, counterexample.  In a successful transmission triggered by
the temperature channel, the proximity changed flag is FALSE (|11 - 10| is
below the 2 cm threshold) and yet the proximity baseline IS updated from 10
to 11: the firmware updates `lastSentProx` (and `lastSentMotion`)
unconditionally on success, not gated on the channel's changed flag. -/
theorem C3_counterexample :
    ¬ proxChangedOf sC3 iC3 ∧ sC3.lastSentProx = some 10 ∧
    (cycle sC3 iC3).lastSentProx = some 11 := by
  have hprox : ¬ proxChangedOf sC3 iC3 := by
    intro h
    rcases h with ⟨cp, lp, hcp, hlp, hge⟩ | ⟨hn, _⟩
    · simp only [iC3] at hcp
      simp only [sC3] at hlp
      rw [Option.some_inj] at hcp hlp
      rw [← hcp, ← hlp] at hge
      norm_num [PROX_DELTA_MIN] at hge
    · exact Option.noConfusion hn
  refine ⟨hprox, rfl, ?_⟩
  rw [cycle_success sC3 iC3 attempt_sC3 rfl rfl]
  simp [iC3]

/-- Claim C3, amended: on a successful transmission, the temperature,
humidity and gas baselines update exactly when the channel's changed flag
was true this cycle (with a defined value); the proximity baseline updates
whenever the current proximity reading is defined and the motion baseline
updates unconditionally, both regardless of their changed flags.  On a
failed POST, with WiFi down, or with no emission decision, no baseline of
any channel is updated. -/
theorem C3_amended (s : SysState) (i : CycleIn) :
    (attemptOf s i → i.wifiUp = true → i.postOk = true →
      ((tempChangedOf s ∧ s.dhtTemp ≠ none →
          (cycle s i).lastSentTemp = s.dhtTemp) ∧
       (¬(tempChangedOf s ∧ s.dhtTemp ≠ none) →
          (cycle s i).lastSentTemp = s.lastSentTemp) ∧
       (humiChangedOf s ∧ s.dhtHumi ≠ none →
          (cycle s i).lastSentHumi = s.dhtHumi) ∧
       (¬(humiChangedOf s ∧ s.dhtHumi ≠ none) →
          (cycle s i).lastSentHumi = s.lastSentHumi) ∧
       (gasChangedOf s i ∧ ppmSendOf s i ≠ none →
          (cycle s i).lastSentGasPPM = ppmSendOf s i) ∧
       (¬(gasChangedOf s i ∧ ppmSendOf s i ≠ none) →
          (cycle s i).lastSentGasPPM = s.lastSentGasPPM) ∧
       (i.curProx ≠ none → (cycle s i).lastSentProx = i.curProx) ∧
       (i.curProx = none → (cycle s i).lastSentProx = s.lastSentProx) ∧
       (cycle s i).lastSentMotion = i.curMotion)) ∧
    (¬(attemptOf s i ∧ i.wifiUp = true ∧ i.postOk = true) →
      ((cycle s i).lastSentTemp = s.lastSentTemp ∧
       (cycle s i).lastSentHumi = s.lastSentHumi ∧
       (cycle s i).lastSentGasPPM = s.lastSentGasPPM ∧
       (cycle s i).lastSentProx = s.lastSentProx ∧
       (cycle s i).lastSentMotion = s.lastSentMotion)) := by
  constructor
  · intro ha hw hp
    rw [cycle_success s i ha hw hp]
    refine ⟨?_, ?_, ?_, ?_, ?_, ?_, ?_, ?_, rfl⟩ <;> intro h <;> simp [h]
  · intro hno
    by_cases ha : attemptOf s i
    · by_cases hw : i.wifiUp = true
      · have hp : i.postOk = false := by
          cases hpk : i.postOk with
          | false => rfl
          | true => exact absurd ⟨ha, hw, hpk⟩ hno
        rw [cycle_postFail s i ha hw hp]
        exact ⟨rfl, rfl, rfl, rfl, rfl⟩
      · have hw' : i.wifiUp = false := by
          simpa using hw
        rw [cycle_noWifi s i ha hw']
        exact ⟨rfl, rfl, rfl, rfl, rfl⟩
    · rw [cycle_noAttempt s i ha]
      exact ⟨rfl, rfl, rfl, rfl, rfl⟩

/-- Claim C3 amended, witness: in the counterexample cycle the triggering
temperature baseline does update to the new reading and the motion baseline
follows the current reading. -/
theorem C3_amended_witness :
    (cycle sC3 iC3).lastSentTemp = sC3.dhtTemp ∧
    (cycle sC3 iC3).lastSentMotion = iC3.curMotion ∧
    (cycle sC3 iC3).lastSentHumi = sC3.lastSentHumi := by
  have h := (C3_amended sC3 iC3).1 attempt_sC3 rfl rfl
  refine ⟨h.1 ⟨Or.inl ⟨30, 20, rfl, rfl, by norm_num [TEMP_DELTA_MIN]⟩,
    by simp [sC3]⟩, h.2.2.2.2.2.2.2.2, h.2.2.2.1 ?_⟩
  intro hc
  rcases hc.1 with ⟨hv, lh, hdh, hlh, hge⟩ | ⟨⟨hfs1, hfs2, hfs3⟩, hne⟩
  · simp only [sC3] at hdh hlh
    rw [Option.some_inj] at hdh hlh
    rw [← hdh, ← hlh] at hge
    norm_num [HUMI_DELTA_MIN] at hge
  · exact Option.noConfusion hfs1

/- ------------------------------------------------------------------ -/
/- Claim C10                                                          -/
/- ------------------------------------------------------------------ -/

/-- Claim C10: calibration metadata is emitted at most once.  (a) A built
payload carries the gas `min`/`max`/`cal_src` fields only while
`gasMetaSent` is false; (b) after a successful transmission whose gas
changed flag was true, `gasMetaSent` is true; (c) once `gasMetaSent` is
true it stays true through the cycle and the payload built from that state
carries no metadata; (d) `gasMetaSent` stays true over any sequence of
further cycles, so no later payload ever carries the metadata again. -/
theorem C10_meta_once (s : SysState) (i : CycleIn) :
    (payloadGasMeta s (ppmSendOf s i) → s.gasMetaSent = false) ∧
    (attemptOf s i → i.wifiUp = true → i.postOk = true → gasChangedOf s i →
      (cycle s i).gasMetaSent = true) ∧
    (s.gasMetaSent = true →
      (cycle s i).gasMetaSent = true ∧ ¬ payloadGasMeta s (ppmSendOf s i)) ∧
    (s.gasMetaSent = true → ∀ l : List CycleIn,
      (l.foldl cycle s).gasMetaSent = true) := by
  refine ⟨fun h => h.2.2, ?_, ?_, ?_⟩
  · intro ha hw hp hg
    rw [cycle_success s i ha hw hp]
    have hne := ppmSend_ne_none_of_gasChanged s i hg
    simp [hg, hne]
  · intro hm
    refine ⟨cycle_metaSent_mono s i hm, fun hpm => ?_⟩
    have hfalse := hpm.2.2
    rw [hm] at hfalse
    exact Bool.noConfusion hfalse
  · intro hm l
    exact foldl_cycle_metaSent_mono l s hm

/-- Claim C10, witness: in the fresh state the payload carries the
metadata and the first successful gas-changed transmission latches
`gasMetaSent`; from a latched state the flag stays latched and the built
payload carries no metadata. -/
theorem C10_meta_once_witness :
    sC10.gasMetaSent = false ∧
    (cycle sC10 iC10).gasMetaSent = true ∧
    (cycle sC10b iC10).gasMetaSent = true ∧
    ¬ payloadGasMeta sC10b (ppmSendOf sC10b iC10) := by
  have hppm : ppmSendOf sC10 iC10 ≠ none := by
    norm_num [ppmSendOf, emaNextOf, ppmInstantOf, mapGasToPPM, linearRatio,
      sC10, iC10]
    exact Option.some_ne_none _
  have hg : gasChangedOf sC10 iC10 := Or.inr (Or.inr ⟨⟨rfl, rfl, rfl⟩, rfl, hppm⟩)
  have hatt : attemptOf sC10 iC10 :=
    Or.inr (by norm_num [forceDueOf, sC10, iC10, FORCE_INTERVAL])
  have h := C10_meta_once sC10 iC10
  have hb := C10_meta_once sC10b iC10
  exact ⟨h.1 ⟨rfl, hppm, rfl⟩, h.2.1 hatt rfl rfl hg, (hb.2.2.1 rfl).1,
    (hb.2.2.1 rfl).2⟩

